import Mathlib

/-!
Verification of the `handler_base` dataset export pipeline
(`src/handler_base/dataset_handler.py`, `src/handler_base/params.py`).

The Python code is shallowly embedded: pure string manipulation becomes
Lean functions over `String` / `List Char`; filesystem byte sizes are a
parameter `FileSys := String → Nat` (source path to byte size);
exceptions become `Except PipelineError`; the side-effect order inside
`create_dataset_json_file` is made observable as an explicit event
trace.  Characters are modelled at ASCII granularity: Python's
`str.strip` is modelled with `Char.isWhitespace` and `\w` of
`re.sub(r'(?u)[^-\w.]', '_', s)` with `Char.isAlphanum || c = '_'`.
-/

namespace HandlerBase

/-- The error raised by the handler: Python has the single class
`ValidationException`; the constructors record the three distinct raise
sites, each with its exact message (see `PipelineError.message`). -/
inductive PipelineError where
  /-- Raised by `Params.__init__`: fewer than six arguments. -/
  | insufficientArgs : PipelineError
  /-- Raised by `validate_datasets`: validation subprocess returned exit code 1;
  carries the subprocess's stderr text. -/
  | validationRejection (msg : String) : PipelineError
  /-- Raised by `create_dataset_json_file`: a project is outside the supported set;
  carries the offending project name. -/
  | projectConstraint (project : String) : PipelineError
deriving DecidableEq, Repr

/-- The message string each `raise ValidationException(...)` site passes. -/
def PipelineError.message : PipelineError → String
  | .insufficientArgs =>
      "The tool was passed an insufficient numbers of arguments."
  | .validationRejection msg => msg
  | .projectConstraint project =>
      "Sorry, you cannot export this kind of data to " ++ project

/-- Record of `params.py` `Params`: the six positional fields. -/
structure Params where
  ds_name : String
  ds_summary : String
  ds_description : String
  user_id : String
  output_file : String
  origin : String
deriving DecidableEq, Repr

/-- Model of `Params.__init__(args)`: raises when `len(args) < 6`, otherwise maps
`args[0]` .. `args[5]` positionally; later elements are never read. -/
def mkParams (args : List String) : Except PipelineError Params :=
  if args.length < 6 then
    .error .insufficientArgs
  else
    .ok { ds_name := args.getD 0 ""
          ds_summary := args.getD 1 ""
          ds_description := args.getD 2 ""
          user_id := args.getD 3 ""
          output_file := args.getD 4 ""
          origin := args.getD 5 "" }

/-- An element of `identify_dataset_files()`:
`{"name": <target name>, "path": <source path>}`. -/
structure DatasetFile where
  name : String
  path : String
deriving DecidableEq, Repr

/-- An element of `identify_dependencies()`. -/
structure Dependency where
  resourceIdentifier : String
  resourceVersion : String
  resourceDisplayName : String
deriving DecidableEq, Repr

/-- The provider capabilities a concrete subclass of `DatasetHandler`
supplies (`identify_dataset_files`, `identify_dependencies`,
`identify_projects`, `identify_supported_projects`). -/
structure Provider where
  datasetFiles : List DatasetFile
  dependencies : List Dependency
  projects : List String
  supportedProjects : Option (List String)
deriving DecidableEq, Repr

/-- Byte size of each source path (`os.stat(path).st_size`). -/
def FileSys := String → Nat

/-- Constant `DatasetHandler.DATASET_JSON`. -/
def DATASET_JSON : String := "dataset.json"

/-- Constant `DatasetHandler.META_JSON`. -/
def META_JSON : String := "meta.json"

/-- Constant `DatasetHandler.DATAFILES`. -/
def DATAFILES : String := "datafiles"

/-! ### `clean_file_name` -/

/-- Python `str.strip()` on a character list (ASCII whitespace model):
drop whitespace from both ends. -/
def pyStrip (l : List Char) : List Char :=
  ((l.dropWhile Char.isWhitespace).reverse.dropWhile Char.isWhitespace).reverse

/-- Model of Python `s.replace(' ', '_')`: every space becomes an underscore. -/
def replaceSpace (l : List Char) : List Char :=
  l.map (fun c => if c = ' ' then '_' else c)

/-- A character matched by `\w`, `-` or `.`, i.e. NOT replaced by
`re.sub(r'(?u)[^-\w.]', '_', s)` (ASCII model of `\w`). -/
def keepChar (c : Char) : Bool :=
  c.isAlphanum || c = '_' || c = '-' || c = '.'

/-- Model of `re.sub(r'(?u)[^-\w.]', '_', s)`: each character outside the class
`[-\w.]` is replaced by an underscore. -/
def subNonWord (l : List Char) : List Char :=
  l.map (fun c => if keepChar c then c else '_')

/-- Model of `DatasetHandler.clean_file_name` on a character list:
`str(file_name).strip().replace(' ', '_')` then the regex substitution. -/
def cleanList (l : List Char) : List Char :=
  subNonWord (replaceSpace (pyStrip l))

/-- Model of `DatasetHandler.clean_file_name` on strings. -/
def clean_file_name (s : String) : String :=
  ⟨cleanList s.data⟩

/-! ### Metadata builders -/

/-- Model of `os.path.basename` on a character list: the suffix after the last
slash. -/
def basenameList (l : List Char) : List Char :=
  (l.reverse.takeWhile (fun c => c ≠ '/')).reverse

/-- Model of `os.path.basename` on strings. -/
def basename (s : String) : String :=
  ⟨basenameList s.data⟩

/-- An element of the `dataFiles` list of `dataset.json`:
`{"name": ..., "file": ..., "size": ...}`. -/
structure DataFileMetadata where
  name : String
  file : String
  size : Nat
deriving DecidableEq, Repr

/-- Model of `DatasetHandler.create_data_file_metadata`: for each dataset file,
`name` is the cleaned target name, `file` is the basename of the source
path, `size` is the source path's byte size. -/
def create_data_file_metadata (fs : FileSys) (files : List DatasetFile) :
    List DataFileMetadata :=
  files.map (fun f =>
    { name := clean_file_name f.name
      file := basename f.path
      size := fs f.path })

/-- The content of `meta.json`
(`{"name": ..., "summary": ..., "description": ...}`). -/
structure MetaJson where
  name : String
  summary : String
  description : String
deriving DecidableEq, Repr

/-- Model of `DatasetHandler.create_metadata_json_file`: the document written to
`meta.json`. -/
def create_metadata_json_file (p : Params) : MetaJson :=
  { name := p.ds_name, summary := p.ds_summary, description := p.ds_description }

/-- The content of `dataset.json` written by `create_dataset_json_file`. -/
structure Descriptor where
  typeName : String
  typeVersion : String
  dependencies : List Dependency
  projects : List String
  dataFiles : List DataFileMetadata
  owner : String
  size : Nat
  created : Nat
deriving DecidableEq, Repr

/-! ### `create_dataset_json_file`, with its side-effect order as a trace -/

/-- An observable side effect inside `create_dataset_json_file`:
`statFile p` is `os.stat(p)` on a source path, `projectCheck p` is one
iteration of the supported-project loop, `writeDatasetJson` is opening
`dataset.json` for writing. -/
inductive Event where
  | statFile (path : String) : Event
  | projectCheck (project : String) : Event
  | writeDatasetJson : Event
deriving DecidableEq, Repr

/-- The loop `for (project) in self.identify_projects():` checks each
project in order and raises at the first one outside the supported set. -/
def checkLoop (sp : List String) : List String → List Event × Except PipelineError Unit
  | [] => ([], .ok ())
  | p :: rest =>
    if sp.contains p then
      let r := checkLoop sp rest
      (Event.projectCheck p :: r.1, r.2)
    else
      ([Event.projectCheck p], .error (.projectConstraint p))

/-- The guarded project-constraint check of `create_dataset_json_file`:
skipped entirely when `identify_supported_projects()` is `None`. -/
def checkProjects (supported : Option (List String)) (projects : List String) :
    List Event × Except PipelineError Unit :=
  match supported with
  | none => ([], .ok ())
  | some sp => checkLoop sp projects

/-- State built by `DatasetHandler.__init__`: configuration, parameter record, the
millisecond timestamp captured once at construction, and the process id. -/
structure Handler where
  dataset_type : String
  version : String
  validation_script : Option String
  params : Params
  timestamp : Nat
  pid : Nat
  provider : Provider
deriving DecidableEq, Repr

/-- Value of `self.export_file_root`, computed in `__init__` from the user id, the
timestamp captured there, and the process id. -/
def export_file_root (h : Handler) : String :=
  "dataset_u" ++ h.params.user_id ++ "_t" ++ toString h.timestamp
    ++ "_p" ++ toString h.pid

/-- Model of `DatasetHandler.create_dataset_json_file`, returning the event trace
that actually happened together with the result.  The Python body first
evaluates `sum(os.stat(f['path']).st_size for f in ...)`, then runs the
project-constraint loop, then opens `dataset.json` and builds the
document (stat-ing each source file again for `create_data_file_metadata`). -/
def create_dataset_json_file (fs : FileSys) (h : Handler) :
    List Event × Except PipelineError Descriptor :=
  let statEvents := h.provider.datasetFiles.map (fun f => Event.statFile f.path)
  let size := (h.provider.datasetFiles.map (fun f => fs f.path)).sum
  let check := checkProjects h.provider.supportedProjects h.provider.projects
  match check.2 with
  | .error e => (statEvents ++ check.1, .error e)
  | .ok _ =>
    (statEvents ++ check.1 ++ [Event.writeDatasetJson] ++ statEvents,
     .ok { typeName := h.dataset_type
           typeVersion := h.version
           dependencies := h.provider.dependencies
           projects := h.provider.projects
           dataFiles := create_data_file_metadata fs h.provider.datasetFiles
           owner := h.params.user_id
           size := size
           created := h.timestamp })

/-! ### File staging and the tarball -/

/-- Model of `shutil.copy(src, dir/name)` into a directory modelled as a list of
(entry name, source the content came from): an existing entry with that
name is overwritten in place, otherwise a new entry is created. -/
def copyInto (dir : List (String × String)) (name src : String) :
    List (String × String) :=
  if dir.any (fun e => e.1 = name) then
    dir.map (fun e => if e.1 = name then (name, src) else e)
  else
    dir ++ [(name, src)]

/-- Model of `DatasetHandler.package_data_files`: copy each dataset file into
`datafiles/` under its cleaned target name, in provider order. -/
def package_data_files (files : List DatasetFile) : List (String × String) :=
  files.foldl (fun dir f => copyInto dir (clean_file_name f.name) f.path) []

/-- Model of `DatasetHandler.create_tarball`: the names added at the archive's top
level, in order. -/
def create_tarball_entries : List String :=
  [META_JSON, DATASET_JSON, DATAFILES]

/-- Exit code and stream contents of the configured validation
subprocess (`validation_process.communicate` / `returncode`). -/
structure ValidationOutcome where
  exitCode : Nat
  stdoutText : String
  stderrText : String
deriving DecidableEq, Repr

/-- Model of `DatasetHandler.validate_datasets`: skipped when no validation script
is configured; otherwise raises `ValidationException(stderr)` exactly
when the subprocess's return code is 1. -/
def validate_datasets (script : Option String) (outcome : ValidationOutcome) :
    Except PipelineError Unit :=
  match script with
  | none => .ok ()
  | some _ =>
    if outcome.exitCode = 1 then
      .error (.validationRejection outcome.stderrText)
    else
      .ok ()

/-- A successful export: the single `.tgz` archive produced, described by
its file name, its top-level entry names, the two JSON documents and the
`datafiles/` directory contents. -/
structure ExportResult where
  archiveName : String
  topLevel : List String
  meta : MetaJson
  descriptor : Descriptor
  datafiles : List (String × String)
deriving DecidableEq, Repr

/-- Model of `DatasetHandler.export`: validate, stage the data files, write
`meta.json`, write `dataset.json` (which may raise the project-constraint
error), then build the tarball `export_file_root + ".tgz"` from the three
top-level items and move it back. -/
def exportDataset (fs : FileSys) (h : Handler) (outcome : ValidationOutcome) :
    Except PipelineError ExportResult := do
  let _ ← validate_datasets h.validation_script outcome
  let staged := package_data_files h.provider.datasetFiles
  let meta := create_metadata_json_file h.params
  let descriptor ← (create_dataset_json_file fs h).2
  .ok { archiveName := export_file_root h ++ ".tgz"
        topLevel := create_tarball_entries
        meta := meta
        descriptor := descriptor
        datafiles := staged }

/-- Model of `DatasetHandler.__init__` followed by `export`: the parameter record
is constructed first (and may raise the argument-count error). -/
def runPipeline (dataset_type version : String) (script : Option String)
    (args : List String) (ts pid : Nat) (prov : Provider)
    (fs : FileSys) (outcome : ValidationOutcome) :
    Except PipelineError ExportResult := do
  let params ← mkParams args
  exportDataset fs
    { dataset_type := dataset_type, version := version,
      validation_script := script, params := params,
      timestamp := ts, pid := pid, provider := prov }
    outcome

/-! ### Helper lemmas about the sanitizer -/

/-- The per-character effect of the regex substitution. -/
def maskChar (c : Char) : Char :=
  if keepChar c then c else '_'

theorem dropWhile_eq_self_of_forall {p : Char → Bool} (l : List Char)
    (h : ∀ c ∈ l, p c = false) : l.dropWhile p = l := by
  cases l with
  | nil => rfl
  | cons a as => simp [List.dropWhile_cons, h a (by simp)]

theorem pyStrip_eq_self (l : List Char)
    (h : ∀ c ∈ l, c.isWhitespace = false) : pyStrip l = l := by
  unfold pyStrip
  rw [dropWhile_eq_self_of_forall l h,
    dropWhile_eq_self_of_forall l.reverse
      (fun c hc => h c (List.mem_reverse.mp hc)),
    List.reverse_reverse]

theorem keepChar_maskChar (c : Char) : keepChar (maskChar c) = true := by
  unfold maskChar
  split
  next h => exact h
  next => decide

theorem maskChar_of_keep (c : Char) (h : keepChar c = true) :
    maskChar c = c := by
  simp [maskChar, h]

theorem not_ws_of_keep (c : Char) (h : keepChar c = true) :
    c.isWhitespace = false := by
  by_contra hw
  rw [Bool.not_eq_false] at hw
  have h4 : c = ' ' ∨ c = '\t' ∨ c = '\r' ∨ c = '\n' := by
    simpa [Char.isWhitespace, or_assoc] using hw
  rcases h4 with h1 | h1 | h1 | h1 <;> subst h1 <;> exact absurd h (by decide)

theorem cleanList_eq_map_mask (l : List Char) :
    cleanList l = (pyStrip l).map maskChar := by
  unfold cleanList subNonWord replaceSpace
  rw [List.map_map]
  refine List.map_congr_left (fun c _ => ?_)
  by_cases hc : c = ' '
  · subst hc; decide
  · simp [Function.comp, hc, maskChar]

theorem cleanList_idem (l : List Char) :
    cleanList (cleanList l) = cleanList l := by
  rw [cleanList_eq_map_mask (cleanList l), cleanList_eq_map_mask l]
  rw [pyStrip_eq_self]
  · rw [List.map_map]
    exact List.map_congr_left fun c _ =>
      maskChar_of_keep (maskChar c) (keepChar_maskChar c)
  · intro c hc
    obtain ⟨c0, _, rfl⟩ := List.mem_map.mp hc
    exact not_ws_of_keep _ (keepChar_maskChar c0)

/-- The sanitization algorithm as the specification words it: trim
leading and trailing whitespace, replace space characters with
underscore, then replace every character that is not a letter, digit,
underscore, hyphen, or period with underscore. -/
def cleanFileNameSpec (s : String) : String :=
  ⟨((pyStrip s.data).map (fun c => if c = ' ' then '_' else c)).map
      (fun c =>
        if c.isAlpha || c.isDigit || c = '_' || c = '-' || c = '.' then c
        else '_')⟩

/-! ### Claim theorems -/

/-- C6: `clean_file_name` first trims leading/trailing whitespace, then
replaces spaces with underscore, then replaces every character that is
not a letter, digit, underscore, hyphen, or period with underscore
(`cleanFileNameSpec`); and it maps `"My File!.csv"` to `"My_File_.csv"`
and `" a/b.txt "` to `"a_b.txt"`. -/
theorem C6_clean_file_name_spec :
    (∀ s : String, clean_file_name s = cleanFileNameSpec s) ∧
    clean_file_name "My File!.csv" = "My_File_.csv" ∧
    clean_file_name " a/b.txt " = "a_b.txt" :=
  ⟨fun _ => rfl, by decide, by decide⟩

/-- C9: `clean_file_name` is idempotent — sanitizing an
already-sanitized name never changes it. -/
theorem C9_clean_file_name_idempotent (s : String) :
    clean_file_name (clean_file_name s) = clean_file_name s :=
  congrArg (fun l => (⟨l⟩ : String)) (cleanList_idem s.data)

/-- C7: constructing the parameter record from fewer than six values
fails with the argument-count error (and the whole pipeline fails the
same way, before any file is read); from six or more values it succeeds,
mapping the first six positionally and ignoring any excess. -/
theorem C7_params_arity :
    (∀ args : List String, args.length < 6 →
      mkParams args = .error .insufficientArgs) ∧
    (∀ a b c d e f : String, ∀ rest : List String,
      mkParams (a :: b :: c :: d :: e :: f :: rest) = .ok ⟨a, b, c, d, e, f⟩) ∧
    (∀ t v : String, ∀ sc : Option String, ∀ args : List String,
      ∀ ts pid : Nat, ∀ prov : Provider, ∀ fs : FileSys,
      ∀ outcome : ValidationOutcome, args.length < 6 →
      runPipeline t v sc args ts pid prov fs outcome =
        .error .insufficientArgs) := by
  refine ⟨fun args h => ?_, fun a b c d e f rest => ?_, ?_⟩
  · simp [mkParams, h]
  · simp [mkParams]
  · intro t v sc args ts pid prov fs outcome h
    simp [runPipeline, mkParams, h, Bind.bind, Except.bind]

/-- C7 witness: five values are rejected; seven values succeed with the
first six mapped positionally and the seventh ignored. -/
theorem C7_params_arity_witness :
    mkParams ["n", "s", "d", "7", "out"] = .error .insufficientArgs ∧
    mkParams ["n", "s", "d", "7", "out", "galaxy", "extra"] =
      .ok ⟨"n", "s", "d", "7", "out", "galaxy"⟩ ∧
    runPipeline "t" "v" none ["n", "s", "d", "7", "out"] 1 2
      ⟨[], [], ["PlasmoDB"], none⟩ (fun _ => 0) ⟨0, "", ""⟩ =
      .error .insufficientArgs :=
  ⟨C7_params_arity.1 ["n", "s", "d", "7", "out"] (by decide),
   C7_params_arity.2.1 "n" "s" "d" "7" "out" "galaxy" ["extra"],
   C7_params_arity.2.2 "t" "v" none ["n", "s", "d", "7", "out"] 1 2
     ⟨[], [], ["PlasmoDB"], none⟩ (fun _ => 0) ⟨0, "", ""⟩ (by decide)⟩

/-- C1 counterexample: for the file with target name `"My File.csv"` and
source path `"/galaxy/data_1.dat"`, the staged in-archive identity is the
sanitized target name `"My_File.csv"`, but the metadata entry's `file`
field is `"data_1.dat"`, the basename of the source path — not the
sanitized name. -/
theorem C1_file_field_counterexample :
    create_data_file_metadata (fun _ => 42)
        [⟨"My File.csv", "/galaxy/data_1.dat"⟩] =
      [{ name := "My_File.csv", file := "data_1.dat", size := 42 }] ∧
    package_data_files [⟨"My File.csv", "/galaxy/data_1.dat"⟩] =
      [("My_File.csv", "/galaxy/data_1.dat")] ∧
    "data_1.dat" ≠ clean_file_name "My File.csv" := by
  refine ⟨by decide, by decide, by decide⟩

/-- C1 as amended: each metadata entry records the sanitized target name
as `name`, the basename of the *source path* (not the sanitized target
name) as `file`, and the source path's byte size as `size`. -/
theorem C1_data_file_metadata (fs : FileSys) (files : List DatasetFile)
    (i : Nat) (h : i < files.length) :
    (create_data_file_metadata fs files).length = files.length ∧
    ((create_data_file_metadata fs files).getD i ⟨"", "", 0⟩).name =
      clean_file_name ((files.getD i ⟨"", ""⟩).name) ∧
    ((create_data_file_metadata fs files).getD i ⟨"", "", 0⟩).file =
      basename ((files.getD i ⟨"", ""⟩).path) ∧
    ((create_data_file_metadata fs files).getD i ⟨"", "", 0⟩).size =
      fs ((files.getD i ⟨"", ""⟩).path) := by
  have hi : files[i]? = some (files.get ⟨i, h⟩) := by
    simp [List.getElem?_eq_getElem h]
  refine ⟨by simp [create_data_file_metadata], ?_, ?_, ?_⟩ <;>
    simp [create_data_file_metadata, List.getD, hi]

/-- C1 amended witness: the metadata entry for
`(name "My File.csv", path "/galaxy/data_1.dat", size 42)`. -/
theorem C1_data_file_metadata_witness :
    (create_data_file_metadata (fun _ => 42)
        [⟨"My File.csv", "/galaxy/data_1.dat"⟩]).length = 1 ∧
    ((create_data_file_metadata (fun _ => 42)
        [⟨"My File.csv", "/galaxy/data_1.dat"⟩]).getD 0 ⟨"", "", 0⟩).name =
      clean_file_name "My File.csv" ∧
    ((create_data_file_metadata (fun _ => 42)
        [⟨"My File.csv", "/galaxy/data_1.dat"⟩]).getD 0 ⟨"", "", 0⟩).file =
      basename "/galaxy/data_1.dat" ∧
    ((create_data_file_metadata (fun _ => 42)
        [⟨"My File.csv", "/galaxy/data_1.dat"⟩]).getD 0 ⟨"", "", 0⟩).size =
      42 :=
  C1_data_file_metadata (fun _ => 42) [⟨"My File.csv", "/galaxy/data_1.dat"⟩]
    0 (by decide)

/-! ### Helper lemmas about the project-constraint loop -/

theorem checkLoop_events_are_checks (sp ps : List String) :
    ∀ e ∈ (checkLoop sp ps).1, ∃ p, e = Event.projectCheck p := by
  induction ps with
  | nil => intro e he; simp [checkLoop] at he
  | cons p rest ih =>
    intro e he
    cases hp : sp.contains p with
    | true =>
      simp only [checkLoop] at he
      rw [if_pos hp] at he
      rcases List.mem_cons.mp he with rfl | he
      · exact ⟨p, rfl⟩
      · exact ih e he
    | false =>
      simp only [checkLoop] at he
      rw [if_neg (by simp only [hp]; decide)] at he
      exact ⟨p, List.mem_singleton.mp he⟩

theorem checkLoop_error_of_bad (sp ps : List String)
    (hbad : ∃ p ∈ ps, sp.contains p = false) :
    ∃ q ∈ ps, sp.contains q = false ∧
      (checkLoop sp ps).2 = .error (.projectConstraint q) := by
  induction ps with
  | nil => simp at hbad
  | cons p rest ih =>
    cases hp : sp.contains p with
    | true =>
      obtain ⟨b, hb, hbc⟩ := hbad
      rcases List.mem_cons.mp hb with rfl | hb
      · rw [hp] at hbc; cases hbc
      · obtain ⟨q, hq, hqc, hqe⟩ := ih ⟨b, hb, hbc⟩
        refine ⟨q, List.mem_cons_of_mem _ hq, hqc, ?_⟩
        simp only [checkLoop]
        rw [if_pos hp]
        exact hqe
    | false =>
      refine ⟨p, List.mem_cons_self _ _, hp, ?_⟩
      simp only [checkLoop]
      rw [if_neg (by simp only [hp]; decide)]

/-- C2 counterexample: with supported set `["ProjectA"]`, provider
project `["ProjectB"]` and one dataset file at `"/p1"`,
`create_dataset_json_file` does fail naming `"ProjectB"`, but its event
trace shows the source file's byte size was read (`os.stat` on `"/p1"`)
*before* the project check that raises — not after the failure check as
the claim states. -/
theorem C2_order_counterexample :
    (create_dataset_json_file (fun _ => 7)
        { dataset_type := "t", version := "v", validation_script := none,
          params := ⟨"n", "s", "d", "77", "out", "galaxy"⟩,
          timestamp := 123, pid := 9,
          provider := ⟨[⟨"f.txt", "/p1"⟩], [], ["ProjectB"],
            some ["ProjectA"]⟩ }).2 =
      .error (.projectConstraint "ProjectB") ∧
    (create_dataset_json_file (fun _ => 7)
        { dataset_type := "t", version := "v", validation_script := none,
          params := ⟨"n", "s", "d", "77", "out", "galaxy"⟩,
          timestamp := 123, pid := 9,
          provider := ⟨[⟨"f.txt", "/p1"⟩], [], ["ProjectB"],
            some ["ProjectA"]⟩ }).1 =
      [Event.statFile "/p1", Event.projectCheck "ProjectB"] := by
  refine ⟨by rfl, by rfl⟩

/-- C2 as amended: with a supported-project set configured that excludes
some provider project, `create_dataset_json_file` fails with a validation
error naming the first such project and never opens `dataset.json` for
writing — but it does so only *after* reading every source file's byte
size: the trace is exactly the `os.stat` events for all dataset files
followed by the project-check events. -/
theorem C2_constraint_before_write (fs : FileSys) (h : Handler)
    (sp : List String) (hsp : h.provider.supportedProjects = some sp)
    (hbad : ∃ p ∈ h.provider.projects, sp.contains p = false) :
    ∃ q ∈ h.provider.projects, sp.contains q = false ∧
      (create_dataset_json_file fs h).2 = .error (.projectConstraint q) ∧
      (PipelineError.projectConstraint q).message =
        "Sorry, you cannot export this kind of data to " ++ q ∧
      Event.writeDatasetJson ∉ (create_dataset_json_file fs h).1 ∧
      (create_dataset_json_file fs h).1 =
        h.provider.datasetFiles.map (fun f => Event.statFile f.path) ++
          (checkLoop sp h.provider.projects).1 := by
  obtain ⟨q, hq, hqc, hqe⟩ :=
    checkLoop_error_of_bad sp h.provider.projects hbad
  have hcheck :
      checkProjects h.provider.supportedProjects h.provider.projects =
        checkLoop sp h.provider.projects := by
    simp [checkProjects, hsp]
  refine ⟨q, hq, hqc, ?_, rfl, ?_, ?_⟩
  · simp [create_dataset_json_file, hcheck, hqe]
  · intro hmem
    simp only [create_dataset_json_file, hcheck, hqe] at hmem
    rcases List.mem_append.mp hmem with hmem | hmem
    · obtain ⟨f, _, hf⟩ := List.mem_map.mp hmem
      cases hf
    · obtain ⟨p, hp⟩ :=
        checkLoop_events_are_checks sp h.provider.projects _ hmem
      cases hp
  · simp [create_dataset_json_file, hcheck, hqe]

/-- C2 witness: the amended statement at the concrete handler of the
counterexample. -/
theorem C2_constraint_before_write_witness :
    ∃ q ∈ ["ProjectB"], (["ProjectA"] : List String).contains q = false ∧
      (create_dataset_json_file (fun _ => 7)
          { dataset_type := "t", version := "v", validation_script := none,
            params := ⟨"n", "s", "d", "77", "out", "galaxy"⟩,
            timestamp := 123, pid := 9,
            provider := ⟨[⟨"f.txt", "/p1"⟩], [], ["ProjectB"],
              some ["ProjectA"]⟩ }).2 =
        .error (.projectConstraint q) ∧
      (PipelineError.projectConstraint q).message =
        "Sorry, you cannot export this kind of data to " ++ q ∧
      Event.writeDatasetJson ∉
        (create_dataset_json_file (fun _ => 7)
          { dataset_type := "t", version := "v", validation_script := none,
            params := ⟨"n", "s", "d", "77", "out", "galaxy"⟩,
            timestamp := 123, pid := 9,
            provider := ⟨[⟨"f.txt", "/p1"⟩], [], ["ProjectB"],
              some ["ProjectA"]⟩ }).1 ∧
      (create_dataset_json_file (fun _ => 7)
          { dataset_type := "t", version := "v", validation_script := none,
            params := ⟨"n", "s", "d", "77", "out", "galaxy"⟩,
            timestamp := 123, pid := 9,
            provider := ⟨[⟨"f.txt", "/p1"⟩], [], ["ProjectB"],
              some ["ProjectA"]⟩ }).1 =
        [⟨"f.txt", "/p1"⟩].map
            (fun f => Event.statFile (DatasetFile.path f)) ++
          (checkLoop ["ProjectA"] ["ProjectB"]).1 :=
  C2_constraint_before_write (fun _ => 7)
    { dataset_type := "t", version := "v", validation_script := none,
      params := ⟨"n", "s", "d", "77", "out", "galaxy"⟩,
      timestamp := 123, pid := 9,
      provider := ⟨[⟨"f.txt", "/p1"⟩], [], ["ProjectB"],
        some ["ProjectA"]⟩ }
    ["ProjectA"] rfl ⟨"ProjectB", by decide, by decide⟩

/-! ### Helper lemmas about staging and the export sequence -/

theorem package_loop_names (files : List DatasetFile)
    (dir : List (String × String))
    (h : (dir.map Prod.fst ++
      files.map (fun f => clean_file_name f.name)).Nodup) :
    (files.foldl
        (fun d f => copyInto d (clean_file_name f.name) f.path) dir).map
        Prod.fst =
      dir.map Prod.fst ++ files.map (fun f => clean_file_name f.name) := by
  induction files generalizing dir with
  | nil => simp
  | cons f rest ih =>
    obtain ⟨_, _, hdisj⟩ := List.nodup_append.mp h
    have hnotin : clean_file_name f.name ∉ dir.map Prod.fst := by
      intro hn
      exact hdisj hn (List.mem_cons_self _ _)
    have hany : dir.any (fun e => e.1 = clean_file_name f.name) = false := by
      rw [List.any_eq_false]
      intro e he heq
      exact hnotin (List.mem_map.mpr ⟨e, he, by simpa using heq⟩)
    have hcopy : copyInto dir (clean_file_name f.name) f.path =
        dir ++ [(clean_file_name f.name, f.path)] := by
      simp only [copyInto, hany]
      rw [if_neg (by decide)]
    have h2 : ((dir ++ [(clean_file_name f.name, f.path)]).map Prod.fst ++
        rest.map (fun f => clean_file_name f.name)).Nodup := by
      rw [List.map_append, List.append_assoc]
      exact h
    calc ((f :: rest).foldl
            (fun d g => copyInto d (clean_file_name g.name) g.path) dir).map
            Prod.fst
        = ((rest.foldl (fun d g => copyInto d (clean_file_name g.name) g.path)
            (dir ++ [(clean_file_name f.name, f.path)]))).map Prod.fst := by
          rw [List.foldl_cons, hcopy]
      _ = (dir ++ [(clean_file_name f.name, f.path)]).map Prod.fst ++
            rest.map (fun g => clean_file_name g.name) := ih _ h2
      _ = dir.map Prod.fst ++
            (f :: rest).map (fun g => clean_file_name g.name) := by
          rw [List.map_append, List.append_assoc]
          rfl

theorem copyInto_length_le (dir : List (String × String)) (n p : String) :
    (copyInto dir n p).length ≤ dir.length + 1 := by
  unfold copyInto
  split
  · simp
  · simp

theorem exportDataset_ok_elim (fs : FileSys) (h : Handler)
    (outcome : ValidationOutcome) (r : ExportResult)
    (hok : exportDataset fs h outcome = .ok r) :
    validate_datasets h.validation_script outcome = .ok () ∧
    ∃ d, (create_dataset_json_file fs h).2 = .ok d ∧
      r = { archiveName := export_file_root h ++ ".tgz",
            topLevel := create_tarball_entries,
            meta := create_metadata_json_file h.params,
            descriptor := d,
            datafiles := package_data_files h.provider.datasetFiles } := by
  unfold exportDataset at hok
  cases hval : validate_datasets h.validation_script outcome with
  | error e =>
    rw [hval] at hok
    simp [Bind.bind, Except.bind] at hok
  | ok u =>
    cases u
    rw [hval] at hok
    cases hd : (create_dataset_json_file fs h).2 with
    | error e =>
      rw [hd] at hok
      simp [Bind.bind, Except.bind] at hok
    | ok d =>
      rw [hd] at hok
      simp only [Bind.bind, Except.bind] at hok
      exact ⟨rfl, d, rfl, (Except.ok.inj hok).symm⟩

/-- C3 counterexample: a provider returning N = 2 dataset files whose
distinct target names `"a b"` and `"a_b"` sanitize to the same string
stages only one entry in `datafiles/` — the second copy silently
overwrites the first — so a successful export's `datafiles` directory
holds 1 entry, not 2 as the claim requires. -/
theorem C3_collision_counterexample :
    "a b" ≠ "a_b" ∧
    clean_file_name "a b" = clean_file_name "a_b" ∧
    (package_data_files [⟨"a b", "/p1"⟩, ⟨"a_b", "/p2"⟩]).length = 1 ∧
    exportDataset (fun _ => 7)
        { dataset_type := "t", version := "v", validation_script := none,
          params := ⟨"n", "s", "d", "77", "out", "galaxy"⟩,
          timestamp := 123, pid := 9,
          provider := ⟨[⟨"a b", "/p1"⟩, ⟨"a_b", "/p2"⟩], [], ["PlasmoDB"],
            none⟩ }
        ⟨0, "", ""⟩ =
      .ok { archiveName := "dataset_u77_t123_p9.tgz",
            topLevel := ["meta.json", "dataset.json", "datafiles"],
            meta := ⟨"n", "s", "d"⟩,
            descriptor :=
              { typeName := "t", typeVersion := "v", dependencies := [],
                projects := ["PlasmoDB"],
                dataFiles := [⟨"a_b", "p1", 7⟩, ⟨"a_b", "p2", 7⟩],
                owner := "77", size := 14, created := 123 },
            datafiles := [("a_b", "/p2")] } :=
  ⟨by decide, by decide, by decide, by rfl⟩

/-- C3 as amended: a successful export yields exactly one archive whose
top-level entries are `meta.json`, `dataset.json` and `datafiles`, and —
provided the sanitized target names are pairwise distinct — the
`datafiles` directory contains exactly N entries, staged under the
sanitized names in provider order.  (When two distinct target names
sanitize to the same string, the later copy overwrites the earlier and
fewer than N entries remain.) -/
theorem C3_archive_layout (fs : FileSys) (h : Handler)
    (outcome : ValidationOutcome) (r : ExportResult)
    (hok : exportDataset fs h outcome = .ok r)
    (hnodup :
      (h.provider.datasetFiles.map (fun f => clean_file_name f.name)).Nodup) :
    r.topLevel = [META_JSON, DATASET_JSON, DATAFILES] ∧
    r.datafiles.length = h.provider.datasetFiles.length ∧
    r.datafiles.map Prod.fst =
      h.provider.datasetFiles.map (fun f => clean_file_name f.name) := by
  obtain ⟨-, d, -, rfl⟩ := exportDataset_ok_elim fs h outcome r hok
  have hnames := package_loop_names h.provider.datasetFiles []
    (by simpa using hnodup)
  refine ⟨rfl, ?_, by simpa [package_data_files] using hnames⟩
  have hlen := congrArg List.length hnames
  simpa [package_data_files] using hlen

/-- C3 witness: a two-file export with distinct sanitized names has the
three top-level entries and exactly two `datafiles` entries. -/
theorem C3_archive_layout_witness :
    (ExportResult.topLevel
        { archiveName := "dataset_u77_t123_p9.tgz",
          topLevel := ["meta.json", "dataset.json", "datafiles"],
          meta := ⟨"n", "s", "d"⟩,
          descriptor :=
            { typeName := "t", typeVersion := "v", dependencies := [],
              projects := ["PlasmoDB"],
              dataFiles := [⟨"f_one.txt", "p1", 7⟩, ⟨"g.txt", "p2", 7⟩],
              owner := "77", size := 14, created := 123 },
          datafiles := [("f_one.txt", "/p1"), ("g.txt", "/p2")] }) =
      [META_JSON, DATASET_JSON, DATAFILES] ∧
    (ExportResult.datafiles
        { archiveName := "dataset_u77_t123_p9.tgz",
          topLevel := ["meta.json", "dataset.json", "datafiles"],
          meta := ⟨"n", "s", "d"⟩,
          descriptor :=
            { typeName := "t", typeVersion := "v", dependencies := [],
              projects := ["PlasmoDB"],
              dataFiles := [⟨"f_one.txt", "p1", 7⟩, ⟨"g.txt", "p2", 7⟩],
              owner := "77", size := 14, created := 123 },
          datafiles := [("f_one.txt", "/p1"), ("g.txt", "/p2")] }).length =
      ([⟨"f one.txt", "/p1"⟩, ⟨"g.txt", "/p2"⟩] : List DatasetFile).length ∧
    (ExportResult.datafiles
        { archiveName := "dataset_u77_t123_p9.tgz",
          topLevel := ["meta.json", "dataset.json", "datafiles"],
          meta := ⟨"n", "s", "d"⟩,
          descriptor :=
            { typeName := "t", typeVersion := "v", dependencies := [],
              projects := ["PlasmoDB"],
              dataFiles := [⟨"f_one.txt", "p1", 7⟩, ⟨"g.txt", "p2", 7⟩],
              owner := "77", size := 14, created := 123 },
          datafiles := [("f_one.txt", "/p1"), ("g.txt", "/p2")] }).map
        Prod.fst =
      ([⟨"f one.txt", "/p1"⟩, ⟨"g.txt", "/p2"⟩] : List DatasetFile).map
        (fun f => clean_file_name f.name) :=
  C3_archive_layout (fun _ => 7)
    { dataset_type := "t", version := "v", validation_script := none,
      params := ⟨"n", "s", "d", "77", "out", "galaxy"⟩,
      timestamp := 123, pid := 9,
      provider := ⟨[⟨"f one.txt", "/p1"⟩, ⟨"g.txt", "/p2"⟩], [],
        ["PlasmoDB"], none⟩ }
    ⟨0, "", ""⟩ _ (by rfl) (by decide)

/-- C8: the creation timestamp captured once at construction
(`h.timestamp`) is both the descriptor's `created` field and the
`<creationTimestampMillis>` in the archive name
`dataset_u<ownerId>_t<timestamp>_p<pid>.tgz`. -/
theorem C8_timestamp_once (fs : FileSys) (h : Handler)
    (outcome : ValidationOutcome) (r : ExportResult)
    (hok : exportDataset fs h outcome = .ok r) :
    r.descriptor.created = h.timestamp ∧
    r.archiveName = "dataset_u" ++ h.params.user_id ++ "_t" ++
      toString h.timestamp ++ "_p" ++ toString h.pid ++ ".tgz" := by
  obtain ⟨-, d, hd, rfl⟩ := exportDataset_ok_elim fs h outcome r hok
  constructor
  · cases hcheck : (checkProjects h.provider.supportedProjects
        h.provider.projects).2 with
    | error e =>
      rw [create_dataset_json_file, hcheck] at hd
      cases hd
    | ok u =>
      cases u
      rw [create_dataset_json_file, hcheck] at hd
      cases hd
      rfl
  · rfl

/-- C8 witness: the successful export with timestamp 123, owner "77" and
process id 9 yields `created = 123` and archive name
`dataset_u77_t123_p9.tgz`. -/
theorem C8_timestamp_once_witness :
    (ExportResult.descriptor
        { archiveName := "dataset_u77_t123_p9.tgz",
          topLevel := ["meta.json", "dataset.json", "datafiles"],
          meta := ⟨"n", "s", "d"⟩,
          descriptor :=
            { typeName := "t", typeVersion := "v", dependencies := [],
              projects := ["PlasmoDB"],
              dataFiles := [⟨"f_one.txt", "p1", 7⟩, ⟨"g.txt", "p2", 7⟩],
              owner := "77", size := 14, created := 123 },
          datafiles := [("f_one.txt", "/p1"), ("g.txt", "/p2")] }).created =
      123 ∧
    (ExportResult.archiveName
        { archiveName := "dataset_u77_t123_p9.tgz",
          topLevel := ["meta.json", "dataset.json", "datafiles"],
          meta := ⟨"n", "s", "d"⟩,
          descriptor :=
            { typeName := "t", typeVersion := "v", dependencies := [],
              projects := ["PlasmoDB"],
              dataFiles := [⟨"f_one.txt", "p1", 7⟩, ⟨"g.txt", "p2", 7⟩],
              owner := "77", size := 14, created := 123 },
          datafiles := [("f_one.txt", "/p1"), ("g.txt", "/p2")] }) =
      "dataset_u" ++ "77" ++ "_t" ++ toString (123 : Nat) ++ "_p" ++
        toString (9 : Nat) ++ ".tgz" :=
  C8_timestamp_once (fun _ => 7)
    { dataset_type := "t", version := "v", validation_script := none,
      params := ⟨"n", "s", "d", "77", "out", "galaxy"⟩,
      timestamp := 123, pid := 9,
      provider := ⟨[⟨"f one.txt", "/p1"⟩, ⟨"g.txt", "/p2"⟩], [],
        ["PlasmoDB"], none⟩ }
    ⟨0, "", ""⟩ _ (by rfl)

/-- C4: with a validation script configured, subprocess exit code 1 makes
export fail with a validation rejection whose message is exactly the
subprocess's error-stream content (no archive result); exit code 0 makes
the pipeline proceed exactly as if validation were disabled. -/
theorem C4_validation_exit_codes (fs : FileSys) (h : Handler)
    (outcome : ValidationOutcome) (s : String)
    (hs : h.validation_script = some s) :
    (outcome.exitCode = 1 →
      exportDataset fs h outcome =
        .error (.validationRejection outcome.stderrText) ∧
      (PipelineError.validationRejection outcome.stderrText).message =
        outcome.stderrText) ∧
    (outcome.exitCode = 0 →
      exportDataset fs h outcome =
        exportDataset fs { h with validation_script := none } outcome) := by
  refine ⟨fun he => ⟨?_, rfl⟩, fun he => ?_⟩
  · have hval : validate_datasets h.validation_script outcome =
        .error (.validationRejection outcome.stderrText) := by
      rw [hs]
      simp [validate_datasets, he]
    unfold exportDataset
    rw [hval]
    rfl
  · have hval : validate_datasets h.validation_script outcome = .ok () := by
      rw [hs]
      simp [validate_datasets, he]
    unfold exportDataset
    rw [hval]
    rfl

/-- C4 witness: a rejecting run (exit 1, stderr `"bad column 3"`) fails
with exactly that message; an accepting run (exit 0) equals the
validation-disabled run. -/
theorem C4_validation_exit_codes_witness :
    (exportDataset (fun _ => 7)
        { dataset_type := "t", version := "v",
          validation_script := some "validate.py",
          params := ⟨"n", "s", "d", "77", "out", "galaxy"⟩,
          timestamp := 123, pid := 9,
          provider := ⟨[⟨"f.txt", "/p1"⟩], [], ["PlasmoDB"], none⟩ }
        ⟨1, "", "bad column 3"⟩ =
      .error (.validationRejection "bad column 3") ∧
      (PipelineError.validationRejection "bad column 3").message =
        "bad column 3") ∧
    exportDataset (fun _ => 7)
        { dataset_type := "t", version := "v",
          validation_script := some "validate.py",
          params := ⟨"n", "s", "d", "77", "out", "galaxy"⟩,
          timestamp := 123, pid := 9,
          provider := ⟨[⟨"f.txt", "/p1"⟩], [], ["PlasmoDB"], none⟩ }
        ⟨0, "", ""⟩ =
      exportDataset (fun _ => 7)
        { dataset_type := "t", version := "v", validation_script := none,
          params := ⟨"n", "s", "d", "77", "out", "galaxy"⟩,
          timestamp := 123, pid := 9,
          provider := ⟨[⟨"f.txt", "/p1"⟩], [], ["PlasmoDB"], none⟩ }
        ⟨0, "", ""⟩ :=
  ⟨(C4_validation_exit_codes (fun _ => 7)
      { dataset_type := "t", version := "v",
        validation_script := some "validate.py",
        params := ⟨"n", "s", "d", "77", "out", "galaxy"⟩,
        timestamp := 123, pid := 9,
        provider := ⟨[⟨"f.txt", "/p1"⟩], [], ["PlasmoDB"], none⟩ }
      ⟨1, "", "bad column 3"⟩ "validate.py" rfl).1 rfl,
   (C4_validation_exit_codes (fun _ => 7)
      { dataset_type := "t", version := "v",
        validation_script := some "validate.py",
        params := ⟨"n", "s", "d", "77", "out", "galaxy"⟩,
        timestamp := 123, pid := 9,
        provider := ⟨[⟨"f.txt", "/p1"⟩], [], ["PlasmoDB"], none⟩ }
      ⟨0, "", ""⟩ "validate.py" rfl).2 rfl⟩

/-- C5: with a supported-project set configured and validation passing,
if the provider returns some project outside the set, export fails with a
project-constraint violation whose message names the offending project,
and no archive result is produced. -/
theorem C5_project_violation (fs : FileSys) (h : Handler)
    (outcome : ValidationOutcome) (sp : List String)
    (hsp : h.provider.supportedProjects = some sp)
    (hbad : ∃ p ∈ h.provider.projects, sp.contains p = false)
    (hval : validate_datasets h.validation_script outcome = .ok ()) :
    ∃ q ∈ h.provider.projects, sp.contains q = false ∧
      exportDataset fs h outcome = .error (.projectConstraint q) ∧
      (PipelineError.projectConstraint q).message =
        "Sorry, you cannot export this kind of data to " ++ q := by
  obtain ⟨q, hq, hqc, hqe⟩ :=
    checkLoop_error_of_bad sp h.provider.projects hbad
  have hds : (create_dataset_json_file fs h).2 =
      .error (.projectConstraint q) := by
    simp [create_dataset_json_file, checkProjects, hsp, hqe]
  refine ⟨q, hq, hqc, ?_, rfl⟩
  unfold exportDataset
  rw [hval]
  simp only [Bind.bind, Except.bind]
  rw [hds]

/-- C5 witness: supported set `["ProjectA"]`, provider project
`["ProjectB"]`: export fails naming `"ProjectB"`. -/
theorem C5_project_violation_witness :
    ∃ q ∈ ["ProjectB"], (["ProjectA"] : List String).contains q = false ∧
      exportDataset (fun _ => 7)
          { dataset_type := "t", version := "v", validation_script := none,
            params := ⟨"n", "s", "d", "77", "out", "galaxy"⟩,
            timestamp := 123, pid := 9,
            provider := ⟨[⟨"f.txt", "/p1"⟩], [], ["ProjectB"],
              some ["ProjectA"]⟩ }
          ⟨0, "", ""⟩ =
        .error (.projectConstraint q) ∧
      (PipelineError.projectConstraint q).message =
        "Sorry, you cannot export this kind of data to " ++ q :=
  C5_project_violation (fun _ => 7)
    { dataset_type := "t", version := "v", validation_script := none,
      params := ⟨"n", "s", "d", "77", "out", "galaxy"⟩,
      timestamp := 123, pid := 9,
      provider := ⟨[⟨"f.txt", "/p1"⟩], [], ["ProjectB"],
        some ["ProjectA"]⟩ }
    ⟨0, "", ""⟩ ["ProjectA"] rfl ⟨"ProjectB", by decide, by decide⟩ rfl

/-- C10: the output-target parameter (fifth argument) is inert — two
six-element argument lists differing only in the fifth value give
identical pipeline results (same validation behaviour, `meta.json`,
`dataset.json`, staged files, archive name and contents); the field is
stored on the parameter record but never read. -/
theorem C10_output_target_inert (t v : String) (sc : Option String)
    (a b c d e1 e2 f : String) (ts pid : Nat) (prov : Provider)
    (fs : FileSys) (outcome : ValidationOutcome) :
    runPipeline t v sc [a, b, c, d, e1, f] ts pid prov fs outcome =
      runPipeline t v sc [a, b, c, d, e2, f] ts pid prov fs outcome := rfl

end HandlerBase
